import Mathlib

/-! # Verification of `src/console_reporter.cc`

Shallow embedding of the console benchmark reporter
(`benchmark::ConsoleReporter` in `src/src/console_reporter.cc`) and of the
statistics aggregator it calls.  C++ `double` values are embedded as `ℚ`
for the formatter (so that everything evaluates) and as `ℝ` for the
aggregator (whose standard deviation needs a square root).  `printf`-style
width formatting is embedded by explicit padding functions.
-/

namespace Benchmark

/-- `%-*s` with width `w`: left-justify `s` in a field of width `w`
(printf never truncates, so the field widens when `s` is longer). -/
def padLeftJustify (w : Nat) (s : String) : String :=
  s ++ String.mk (List.replicate (w - s.length) ' ')

/-- `%*s` with width `w`: right-justify `s` in a field of width `w`. -/
def padRightJustify (w : Nat) (s : String) : String :=
  String.mk (List.replicate (w - s.length) ' ') ++ s

/-- `%w.0f`: a number rounded to zero decimals, right-justified in a field
of width `w`.  (The exact tie-breaking of printf's rounding on doubles is
irrelevant to every claim; only determinism and the width matter.) -/
def fmtFixed0 (w : Nat) (q : ℚ) : String :=
  padRightJustify w (toString (round q))

/-- Display time units of a run record.  The `TimeUnit` enum is declared in
`benchmark/reporter.h`, which is outside this repository slice; the spec
lists nanosecond/microsecond/millisecond/second. -/
inductive TimeUnit where
  | kNanosecond
  | kMicrosecond
  | kMillisecond
  | kSecond
deriving DecidableEq, Repr

/-- Modelled from the spec: `GetTimeUnitAndMultiplier` (declared in
`benchmark/reporter.h`, implemented outside `src/`) maps a `time_unit` to a
display label and a display multiplier through a total unit table; the
spec gives nanoseconds→1 down to seconds→1e-9. -/
def GetTimeUnitAndMultiplier : TimeUnit → String × ℚ
  | TimeUnit.kNanosecond => ("ns", 1)
  | TimeUnit.kMicrosecond => ("us", 1 / 1000)
  | TimeUnit.kMillisecond => ("ms", 1 / 1000000)
  | TimeUnit.kSecond => ("s", 1 / 1000000000)

/-- One run record (`BenchmarkReporter::Run`, declared in
`benchmark/reporter.h` outside this slice; fields are exactly the ones the
spec's data model lists and `console_reporter.cc` reads).  Numeric fields
are C++ `double`s, embedded over a field `α` (`ℚ` for the formatter, `ℝ`
for the aggregator).  `iterations` is an `int64_t` in C++; it is embedded
in `α` as well because the aggregated mean/stddev records carry fractional
iteration counts per the spec. -/
structure Run (α : Type) where
  benchmark_name : String
  iterations : α
  real_accumulated_time : α
  cpu_accumulated_time : α
  manual_accumulated_time : α
  time_unit : TimeUnit
  bytes_per_second : α
  items_per_second : α
  bytes_per_manual_second : α
  items_per_manual_second : α
  both_manual_and_real_time : Bool
  report_label : String
deriving DecidableEq

/-- Run records as consumed by the console formatter. -/
abbrev QRun := Run ℚ

instance : Inhabited QRun :=
  ⟨⟨"", 0, 0, 0, 0, TimeUnit.kNanosecond, 0, 0, 0, 0, false, ""⟩⟩

instance : Inhabited (Run ℝ) :=
  ⟨⟨"", 0, 0, 0, 0, TimeUnit.kNanosecond, 0, 0, 0, 0, false, ""⟩⟩

/-- The two member fields of `ConsoleReporter` that `console_reporter.cc`
touches (declared in `benchmark/reporter.h`): the session layout state. -/
structure ReporterState where
  name_field_width_ : Nat
  manual_time_used_ : Bool
deriving DecidableEq

/-- Output streams used by the reporter. -/
inductive OutStream where
  | out
  | err
deriving DecidableEq, Repr

namespace ConsoleReporter

/-- The `rate` string as first computed in `PrintRunData`:
`" <human-readable>B/s"` when `bytes_per_second > 0`, else empty.
`HumanReadableNumber` (from `string_util.h`, outside this slice) is kept
abstract as the parameter `hrn`. -/
def rateStr (hrn : ℚ → String) (result : QRun) : String :=
  if 0 < result.bytes_per_second then
    " " ++ hrn result.bytes_per_second ++ "B/s"
  else ""

/-- The `manual_rate` string of `PrintRunData`. -/
def manualRateStr (hrn : ℚ → String) (result : QRun) : String :=
  if 0 < result.bytes_per_manual_second then
    " " ++ hrn result.bytes_per_manual_second ++ "B/s (manual)"
  else ""

/-- The final value of `rate` in `PrintRunData`: inside the
`bytes_per_manual_second > 0` branch the source clears `rate` when
`both_manual_and_real_time` is false. -/
def rateFinal (hrn : ℚ → String) (result : QRun) : String :=
  if 0 < result.bytes_per_manual_second ∧ result.both_manual_and_real_time = false
  then ""
  else rateStr hrn result

/-- The `items` string as first computed in `PrintRunData`. -/
def itemsStr (hrn : ℚ → String) (result : QRun) : String :=
  if 0 < result.items_per_second then
    " " ++ hrn result.items_per_second ++ " items/s"
  else ""

/-- The `manual_items` string of `PrintRunData`. -/
def manualItemsStr (hrn : ℚ → String) (result : QRun) : String :=
  if 0 < result.items_per_manual_second then
    " " ++ hrn result.items_per_manual_second ++ " items/s (manual)"
  else ""

/-- The final value of `items` in `PrintRunData` (cleared inside the
`items_per_manual_second > 0` branch when `both_manual_and_real_time` is
false). -/
def itemsFinal (hrn : ℚ → String) (result : QRun) : String :=
  if 0 < result.items_per_manual_second ∧ result.both_manual_and_real_time = false
  then ""
  else itemsStr hrn result

/-- `double iters = (result.iterations == 0) ? 1 : (double)result.iterations;` -/
def itersDivisor (result : QRun) : ℚ :=
  if result.iterations = 0 then 1 else result.iterations

/-- One time column of the `ColorPrintf(COLOR_YELLOW, "%10.0f %s ...")`
call: the per-iteration value 10-wide with zero decimals, a space, the
unit label, a space. -/
def timeCol (v : ℚ) (timeLabel : String) : String :=
  fmtFixed0 10 v ++ " " ++ timeLabel ++ " "

/-- The yellow time section of a run line: three columns
(real, manual, cpu) when the session's `manual_time_used_` flag is set,
two columns (real, cpu) otherwise. -/
def timeSection (st : ReporterState) (result : QRun) : String :=
  let tm := GetTimeUnitAndMultiplier result.time_unit
  let timeLabel := tm.1
  let multiplier := tm.2
  let iters := itersDivisor result
  if st.manual_time_used_ then
    timeCol (result.real_accumulated_time * multiplier / iters) timeLabel ++
    timeCol (result.manual_accumulated_time * multiplier / iters) timeLabel ++
    timeCol (result.cpu_accumulated_time * multiplier / iters) timeLabel
  else
    timeCol (result.real_accumulated_time * multiplier / iters) timeLabel ++
    timeCol (result.cpu_accumulated_time * multiplier / iters) timeLabel

/-- The pieces of one formatted run line, in the order `PrintRunData`
prints them.  A field printed only under a non-emptiness test is an
`Option`: `none` means the corresponding `ColorPrintf` call is skipped.
Colors (green name, yellow times, cyan iterations, default rest) are
presentation-only and carried by no claim, so they are not modelled. -/
structure RunLine where
  name_field : String
  time_section : String
  iterations_field : String
  rate_field : Option String
  items_field : Option String
  manual_rate_field : Option String
  manual_items_field : Option String
  label_field : Option String
deriving DecidableEq

/-- Flatten an optional field: a skipped `ColorPrintf` prints nothing. -/
def optStr : Option String → String
  | none => ""
  | some s => s

/-- The full text of a run line, fields concatenated in print order and
terminated by the final `ColorPrintf(COLOR_DEFAULT, "\n")`. -/
def RunLine.render (l : RunLine) : String :=
  l.name_field ++ l.time_section ++ l.iterations_field ++
  optStr l.rate_field ++ optStr l.items_field ++
  optStr l.manual_rate_field ++ optStr l.manual_items_field ++
  optStr l.label_field ++ "\n"

/-- `ConsoleReporter::PrintRunData` (lines 91-179 of the source): builds
the four annotation strings with their suppression rules, then prints the
name (`"%-*s "`), the time section, the iterations (`"%10lld"`), each
non-empty annotation right-justified (`" %*s"` with width 13 for rates and
18 for items), and the label. -/
def PrintRunData (hrn : ℚ → String) (st : ReporterState) (result : QRun) :
    RunLine :=
  let rate := rateFinal hrn result
  let manual_rate := manualRateStr hrn result
  let items := itemsFinal hrn result
  let manual_items := manualItemsStr hrn result
  { name_field := padLeftJustify st.name_field_width_ result.benchmark_name ++ " "
    time_section := timeSection st result
    iterations_field := padRightJustify 10 (toString result.iterations.num)
    rate_field :=
      if rate = "" then none else some (" " ++ padRightJustify 13 rate)
    items_field :=
      if items = "" then none else some (" " ++ padRightJustify 18 items)
    manual_rate_field :=
      if manual_rate = "" then none
      else some (" " ++ padRightJustify 13 manual_rate)
    manual_items_field :=
      if manual_items = "" then none
      else some (" " ++ padRightJustify 18 manual_items)
    label_field :=
      if result.report_label = "" then none
      else some (" " ++ result.report_label) }

/-- State-passing view of the `PrintRunData` member function: the method
reads `name_field_width_` and `manual_time_used_` and assigns to neither
member, so the reporter state comes back unchanged next to the line. -/
def PrintRunDataS (hrn : ℚ → String) (st : ReporterState) (result : QRun) :
    ReporterState × RunLine :=
  (st, PrintRunData hrn st result)

/-- A run line tagged with its destination stream.  `ColorPrintf` (from
`colorprint.h`, outside this slice) writes to standard output. -/
def lineOf (hrn : ℚ → String) (st : ReporterState) (r : QRun) :
    OutStream × String :=
  (OutStream.out, (PrintRunData hrn st r).render)

/-- The `for (Run const& run : reports)` loop of `ReportRuns`: per element
first `CHECK_EQ(reports[0].benchmark_name, run.benchmark_name)`, then
`PrintRunData(run)`.  A failing `CHECK` aborts the process, embedded as
`none`. -/
def reportLoop (hrn : ℚ → String) (st : ReporterState) (firstName : String) :
    List QRun → Option (List (OutStream × String))
  | [] => some []
  | r :: rs =>
    if r.benchmark_name = firstName then
      (reportLoop hrn st firstName rs).map (fun ls => lineOf hrn st r :: ls)
    else none

/-- `ConsoleReporter::ReportRuns` (lines 67-89 of the source): empty input
returns immediately; each run is checked against the first run's name and
printed; with fewer than two runs that is all; otherwise
`BenchmarkReporter::ComputeStats` (passed in as `cs`, it lives outside
this slice) produces the mean and stddev records, which are printed last.
The method writes no member, so the state comes back unchanged. -/
def ReportRuns (cs : List QRun → QRun × QRun) (hrn : ℚ → String)
    (st : ReporterState) (reports : List QRun) :
    ReporterState × Option (List (OutStream × String)) :=
  match reports with
  | [] => (st, some [])
  | r0 :: rest =>
    (st, (reportLoop hrn st r0.benchmark_name (r0 :: rest)).map (fun ls =>
      if (r0 :: rest).length < 2 then ls
      else
        let ms := cs (r0 :: rest)
        ls ++ [lineOf hrn st ms.1, lineOf hrn st ms.2]))

/-- The session context record handed to `ReportContext` (declared in
`benchmark/reporter.h` outside this slice; fields are the ones the source
reads). -/
structure Context where
  num_cpus : Nat
  mhz_per_cpu : Nat
  name_field_width : Nat
  cpu_scaling_enabled : Bool
  manual_time_used : Bool
deriving DecidableEq

/-- The `"Run on (N X M MHz CPU s)"` line written to `std::cerr`. -/
def cpuInfoLine (context : Context) : String :=
  "Run on (" ++ toString context.num_cpus ++ " X " ++
  toString context.mhz_per_cpu ++ " MHz CPU " ++
  (if 1 < context.num_cpus then "s" else "") ++ ")\n"

/-- The CPU-scaling warning written to `std::cerr` when
`cpu_scaling_enabled` is set. -/
def scalingWarning : String :=
  "***WARNING*** CPU scaling is enabled, the benchmark " ++
  "real time measurements may be noisy and will incur extra " ++
  "overhead.\n"

/-- The debug-build warning written to `std::cerr` when the library was
compiled without `NDEBUG`. -/
def debugWarning : String :=
  "***WARNING*** Library was built as DEBUG. Timings may be " ++
  "affected.\n"

/-- The column header without its terminating newline: 3 time columns
(`Real time`, `Manual time`, `CPU`) when `manual_time_used` is set, else
2 (`Time`, `CPU`); the benchmark-name column is `%-*s` with the session
name field width, the other columns `%13s` / `%10s`. -/
def headerBody (name_field_width : Nat) (manual_time_used : Bool) : String :=
  if manual_time_used then
    padLeftJustify name_field_width "Benchmark" ++ " " ++
    padRightJustify 13 "Real time" ++ " " ++
    padRightJustify 13 "Manual time" ++ " " ++
    padRightJustify 13 "CPU" ++ " " ++
    padRightJustify 10 "Iterations"
  else
    padLeftJustify name_field_width "Benchmark" ++ " " ++
    padRightJustify 13 "Time" ++ " " ++
    padRightJustify 13 "CPU" ++ " " ++
    padRightJustify 10 "Iterations"

/-- The full header line as printed by the `fprintf(stdout, ...)` call,
whose format string ends in `\n`. -/
def headerLine (name_field_width : Nat) (manual_time_used : Bool) : String :=
  headerBody name_field_width manual_time_used ++ "\n"

/-- The rule line under the header: `fprintf` returned the number of
characters it printed (`output_width`, newline included) and the source
prints `std::string(output_width - 1, '-')`. -/
def ruleLine (name_field_width : Nat) (manual_time_used : Bool) : String :=
  String.mk (List.replicate
    ((headerLine name_field_width manual_time_used).length - 1) '-')

/-- `ConsoleReporter::ReportContext` (lines 31-65 of the source): assigns
`name_field_width_` from the context, writes the environment lines to
`std::cerr` (`localDateTime` stands for the external
`LocalDateTimeString()`, `debugBuild` for the compile-time `NDEBUG`
test), prints the header and rule to `stdout` while recording
`manual_time_used_`, and returns `true`. -/
def ReportContext (localDateTime : String) (debugBuild : Bool)
    (st : ReporterState) (context : Context) :
    ReporterState × List (OutStream × String) × Bool :=
  let _ := st
  (⟨context.name_field_width, context.manual_time_used⟩,
   [(OutStream.err, cpuInfoLine context),
    (OutStream.err, localDateTime ++ "\n")] ++
   (if context.cpu_scaling_enabled then [(OutStream.err, scalingWarning)] else []) ++
   (if debugBuild then [(OutStream.err, debugWarning)] else []) ++
   [(OutStream.out, headerLine context.name_field_width context.manual_time_used),
    (OutStream.out, ruleLine context.name_field_width context.manual_time_used ++ "\n")],
   true)

end ConsoleReporter

/-- Arithmetic mean of a numeric field across a run set. -/
noncomputable def meanOf (reports : List (Run ℝ)) (f : Run ℝ → ℝ) : ℝ :=
  (reports.map f).sum / reports.length

/-- Population standard deviation (divisor `N`) of a numeric field across
a run set. -/
noncomputable def popStddevOf (reports : List (Run ℝ)) (f : Run ℝ → ℝ) : ℝ :=
  Real.sqrt ((reports.map (fun r => (f r - meanOf reports f) ^ 2)).sum /
    reports.length)

namespace BenchmarkReporter

/-- Modelled from the spec: `BenchmarkReporter::ComputeStats` is declared
in `benchmark/reporter.h` and implemented outside this repository slice.
Per the spec it takes N ≥ 1 same-named run records and produces a mean
record and a stddev record: each of the eight numeric fields gets the
arithmetic mean resp. the population-style standard deviation (0, never
NaN, for a single sample) of the per-run values, and the non-numeric
fields (`benchmark_name`, `report_label`, `time_unit`,
`both_manual_and_real_time`) are copied verbatim from the first run. -/
noncomputable def ComputeStats (reports : List (Run ℝ)) : Run ℝ × Run ℝ :=
  let first := reports.headI
  ({ first with
      iterations := meanOf reports (fun r => r.iterations)
      real_accumulated_time := meanOf reports (fun r => r.real_accumulated_time)
      cpu_accumulated_time := meanOf reports (fun r => r.cpu_accumulated_time)
      manual_accumulated_time := meanOf reports (fun r => r.manual_accumulated_time)
      bytes_per_second := meanOf reports (fun r => r.bytes_per_second)
      items_per_second := meanOf reports (fun r => r.items_per_second)
      bytes_per_manual_second := meanOf reports (fun r => r.bytes_per_manual_second)
      items_per_manual_second := meanOf reports (fun r => r.items_per_manual_second) },
   { first with
      iterations := popStddevOf reports (fun r => r.iterations)
      real_accumulated_time := popStddevOf reports (fun r => r.real_accumulated_time)
      cpu_accumulated_time := popStddevOf reports (fun r => r.cpu_accumulated_time)
      manual_accumulated_time := popStddevOf reports (fun r => r.manual_accumulated_time)
      bytes_per_second := popStddevOf reports (fun r => r.bytes_per_second)
      items_per_second := popStddevOf reports (fun r => r.items_per_second)
      bytes_per_manual_second := popStddevOf reports (fun r => r.bytes_per_manual_second)
      items_per_manual_second := popStddevOf reports (fun r => r.items_per_manual_second) })

end BenchmarkReporter

/-! ## Concrete fixtures

Concrete values used by the closed witness theorems below. -/

/-- A concrete stand-in for the external `HumanReadableNumber`. -/
def hrn0 : ℚ → String := fun q => toString q.num

/-- A session state without manual timing, name column width 10. -/
def st0 : ReporterState := ⟨10, false⟩

/-- A session state with manual timing in use. -/
def st1 : ReporterState := ⟨10, true⟩

/-- A concrete stand-in for the external `BenchmarkReporter::ComputeStats`
as seen by `ReportRuns` (any function of this type works there). -/
def csStub : List QRun → QRun × QRun := fun _ => (default, default)

/-- A plain single run of a benchmark named `BM_test`. -/
def baseRun : QRun :=
  ⟨"BM_test", 1, 5, 4, 3, TimeUnit.kNanosecond, 0, 0, 0, 0, false, ""⟩

/-- A run carrying both a real-time rate and a manual rate (and item
counterparts) with `both_manual_and_real_time = false`. -/
def manualRun : QRun :=
  { baseRun with
      bytes_per_second := 1000
      bytes_per_manual_second := 500
      items_per_second := 3
      items_per_manual_second := 2
      both_manual_and_real_time := false }

/-- A run with rates derived from real time only. -/
def realRateRun : QRun :=
  { baseRun with
      bytes_per_second := 1000
      items_per_second := 3
      both_manual_and_real_time := false }

/-- A run with zero iterations. -/
def zeroIterRun : QRun := { baseRun with iterations := 0 }

/-- A second run of `BM_test` with different timings. -/
def otherRun : QRun := { baseRun with real_accumulated_time := 7 }

/-- A run of a differently named benchmark. -/
def alienRun : QRun := { baseRun with benchmark_name := "BM_other" }

/-- A concrete session context. -/
def ctx0 : ConsoleReporter.Context := ⟨4, 2400, 10, true, false⟩

/-- The aggregation test vector of the spec: three runs of one benchmark
with real times 10, 20, 30 and one iteration each. -/
noncomputable def statRun (t : ℝ) : Run ℝ :=
  ⟨"BM_test", 1, t, 4, 3, TimeUnit.kNanosecond, 0, 0, 0, 0, false, ""⟩

/-- The three-run list `[10, 20, 30]` of the spec's aggregation test. -/
noncomputable def statRuns : List (Run ℝ) := [statRun 10, statRun 20, statRun 30]

/-! ## Helper lemmas -/

open ConsoleReporter

theorem padLeftJustify_length (w : Nat) (s : String) :
    (padLeftJustify w s).length = max w s.length := by
  simp [padLeftJustify, String.length_append, String.length_mk]
  omega

theorem padRightJustify_length (w : Nat) (s : String) :
    (padRightJustify w s).length = max w s.length := by
  simp [padRightJustify, String.length_append, String.length_mk]
  omega

theorem space_append_ne_empty (s : String) : ¬ " " ++ s = "" := by
  intro h
  have h2 := congrArg String.length h
  rw [String.length_append] at h2
  have hs : (" " : String).length = 1 := rfl
  have he : ("" : String).length = 0 := rfl
  rw [hs, he] at h2
  omega

theorem space_append2_ne_empty (s t : String) : ¬ " " ++ s ++ t = "" := by
  intro h
  have h2 := congrArg String.length h
  rw [String.length_append, String.length_append] at h2
  have hs : (" " : String).length = 1 := rfl
  have he : ("" : String).length = 0 := rfl
  rw [hs, he] at h2
  omega

/-! ## Claims -/

/-- C1: when `bytes_per_manual_second > 0` and `both_manual_and_real_time`
is false, the formatted line carries the manual-rate annotation and omits
the real-time rate annotation entirely, even if `bytes_per_second > 0`;
likewise a positive `items_per_manual_second` suppresses the items
annotation. -/
theorem manual_rate_suppresses_real_rate
    (hrn : ℚ → String) (st : ReporterState) (r : QRun) :
    (0 < r.bytes_per_manual_second → r.both_manual_and_real_time = false →
      (PrintRunData hrn st r).manual_rate_field =
        some (" " ++ padRightJustify 13
          (" " ++ hrn r.bytes_per_manual_second ++ "B/s (manual)")) ∧
      (PrintRunData hrn st r).rate_field = none) ∧
    (0 < r.items_per_manual_second → r.both_manual_and_real_time = false →
      (PrintRunData hrn st r).manual_items_field =
        some (" " ++ padRightJustify 18
          (" " ++ hrn r.items_per_manual_second ++ " items/s (manual)")) ∧
      (PrintRunData hrn st r).items_field = none) := by
  constructor
  · intro h1 h2
    constructor
    · simp [PrintRunData, manualRateStr, h1, space_append_ne_empty, space_append2_ne_empty]
    · simp [PrintRunData, rateFinal, h1, h2]
  · intro h1 h2
    constructor
    · simp [PrintRunData, manualItemsStr, h1, space_append_ne_empty, space_append2_ne_empty]
    · simp [PrintRunData, itemsFinal, h1, h2]

/-- C1 witness: the spec's concrete suppression example
(`bytes_per_manual_second = 500`, `bytes_per_second = 1000`,
`both_manual_and_real_time = false`). -/
theorem manual_rate_suppresses_real_rate_witness :
    (PrintRunData hrn0 st0 manualRun).manual_rate_field =
      some (" " ++ padRightJustify 13 (" " ++ hrn0 500 ++ "B/s (manual)")) ∧
    (PrintRunData hrn0 st0 manualRun).rate_field = none ∧
    (PrintRunData hrn0 st0 manualRun).manual_items_field =
      some (" " ++ padRightJustify 18 (" " ++ hrn0 2 ++ " items/s (manual)")) ∧
    (PrintRunData hrn0 st0 manualRun).items_field = none := by
  have h := manual_rate_suppresses_real_rate hrn0 st0 manualRun
  have h1 : (0 : ℚ) < manualRun.bytes_per_manual_second := by
    norm_num [manualRun, baseRun]
  have h2 : manualRun.both_manual_and_real_time = false := rfl
  have h3 : (0 : ℚ) < manualRun.items_per_manual_second := by
    norm_num [manualRun, baseRun]
  obtain ⟨ha, hb⟩ := h.1 h1 h2
  obtain ⟨hc, hd⟩ := h.2 h3 h2
  exact ⟨ha, hb, hc, hd⟩

/-- C9: with `bytes_per_manual_second = 0` the real-time rate annotation
is rendered whenever `bytes_per_second > 0`, whatever the value of
`both_manual_and_real_time`; likewise for items.  Suppression happens
only when the corresponding manual value is strictly positive. -/
theorem no_manual_rate_keeps_real_rate
    (hrn : ℚ → String) (st : ReporterState) (r : QRun) :
    (r.bytes_per_manual_second = 0 → 0 < r.bytes_per_second →
      (PrintRunData hrn st r).rate_field =
        some (" " ++ padRightJustify 13
          (" " ++ hrn r.bytes_per_second ++ "B/s"))) ∧
    (r.items_per_manual_second = 0 → 0 < r.items_per_second →
      (PrintRunData hrn st r).items_field =
        some (" " ++ padRightJustify 18
          (" " ++ hrn r.items_per_second ++ " items/s"))) := by
  constructor
  · intro h1 h2
    simp [PrintRunData, rateFinal, rateStr, h1, h2, space_append_ne_empty, space_append2_ne_empty]
  · intro h1 h2
    simp [PrintRunData, itemsFinal, itemsStr, h1, h2, space_append_ne_empty, space_append2_ne_empty]

/-- C9 witness: a run with real-time rates only keeps both real-time
annotations (its `both_manual_and_real_time` is false). -/
theorem no_manual_rate_keeps_real_rate_witness :
    (PrintRunData hrn0 st0 realRateRun).rate_field =
      some (" " ++ padRightJustify 13 (" " ++ hrn0 1000 ++ "B/s")) ∧
    (PrintRunData hrn0 st0 realRateRun).items_field =
      some (" " ++ padRightJustify 18 (" " ++ hrn0 3 ++ " items/s")) := by
  have h := no_manual_rate_keeps_real_rate hrn0 st0 realRateRun
  have h1 : realRateRun.bytes_per_manual_second = 0 := rfl
  have h2 : (0 : ℚ) < realRateRun.bytes_per_second := by
    norm_num [realRateRun, baseRun]
  have h3 : realRateRun.items_per_manual_second = 0 := rfl
  have h4 : (0 : ℚ) < realRateRun.items_per_second := by
    norm_num [realRateRun, baseRun]
  exact ⟨h.1 h1 h2, h.2 h3 h4⟩

/-- C3: the per-iteration divisor is 1 when `iterations == 0` and
`iterations` otherwise, so the division is never by zero, and a run with
zero iterations renders the same per-iteration time values as the same
run with one iteration. -/
theorem divisor_never_zero (hrn : ℚ → String) (st : ReporterState) (r : QRun) :
    (r.iterations = 0 → itersDivisor r = 1 ∧
      (PrintRunData hrn st r).time_section =
        (PrintRunData hrn st { r with iterations := 1 }).time_section) ∧
    (r.iterations ≠ 0 → itersDivisor r = r.iterations) ∧
    itersDivisor r ≠ 0 := by
  refine ⟨?_, ?_, ?_⟩
  · intro h
    constructor
    · simp [itersDivisor, h]
    · simp [PrintRunData, timeSection, itersDivisor, h]
  · intro h
    simp [itersDivisor, h]
  · by_cases h : r.iterations = 0
    · simp [itersDivisor, h]
    · simp [itersDivisor, h]

/-- C3 witness: the zero-iteration run uses divisor 1 and its time section
equals the one of the same run with `iterations = 1`. -/
theorem divisor_never_zero_witness :
    itersDivisor zeroIterRun = 1 ∧
    (PrintRunData hrn0 st0 zeroIterRun).time_section =
      (PrintRunData hrn0 st0 { zeroIterRun with iterations := 1 }).time_section ∧
    itersDivisor zeroIterRun ≠ 0 := by
  have h := divisor_never_zero hrn0 st0 zeroIterRun
  have h0 : zeroIterRun.iterations = 0 := rfl
  obtain ⟨ha, hb⟩ := h.1 h0
  exact ⟨ha, hb, h.2.2⟩

/-- C4: when the session flag `manual_time_used_` is set every line gets
exactly the three time columns real, manual, cpu (even when the run's
`manual_accumulated_time` is 0, which is not hypothesised); when it is
clear, exactly the two columns real, cpu; each column is a zero-decimal
number at least 10 wide followed by the unit label, so the time-section
layout depends only on the session state. -/
theorem time_column_layout (hrn : ℚ → String) (st : ReporterState) (r : QRun) :
    (st.manual_time_used_ = true →
      (PrintRunData hrn st r).time_section =
        timeCol (r.real_accumulated_time * (GetTimeUnitAndMultiplier r.time_unit).2 /
            itersDivisor r) (GetTimeUnitAndMultiplier r.time_unit).1 ++
        timeCol (r.manual_accumulated_time * (GetTimeUnitAndMultiplier r.time_unit).2 /
            itersDivisor r) (GetTimeUnitAndMultiplier r.time_unit).1 ++
        timeCol (r.cpu_accumulated_time * (GetTimeUnitAndMultiplier r.time_unit).2 /
            itersDivisor r) (GetTimeUnitAndMultiplier r.time_unit).1) ∧
    (st.manual_time_used_ = false →
      (PrintRunData hrn st r).time_section =
        timeCol (r.real_accumulated_time * (GetTimeUnitAndMultiplier r.time_unit).2 /
            itersDivisor r) (GetTimeUnitAndMultiplier r.time_unit).1 ++
        timeCol (r.cpu_accumulated_time * (GetTimeUnitAndMultiplier r.time_unit).2 /
            itersDivisor r) (GetTimeUnitAndMultiplier r.time_unit).1) ∧
    (∀ v : ℚ, 10 ≤ (fmtFixed0 10 v).length) := by
  refine ⟨?_, ?_, ?_⟩
  · intro h
    simp [PrintRunData, timeSection, h]
  · intro h
    simp [PrintRunData, timeSection, h]
  · intro v
    simp [fmtFixed0, padRightJustify_length]

/-- C4 witness: a run without manual time still gets three columns under
the manual session state and two under the plain one. -/
theorem time_column_layout_witness :
    (PrintRunData hrn0 st1 baseRun).time_section =
      timeCol (baseRun.real_accumulated_time *
          (GetTimeUnitAndMultiplier baseRun.time_unit).2 / itersDivisor baseRun)
        (GetTimeUnitAndMultiplier baseRun.time_unit).1 ++
      timeCol (baseRun.manual_accumulated_time *
          (GetTimeUnitAndMultiplier baseRun.time_unit).2 / itersDivisor baseRun)
        (GetTimeUnitAndMultiplier baseRun.time_unit).1 ++
      timeCol (baseRun.cpu_accumulated_time *
          (GetTimeUnitAndMultiplier baseRun.time_unit).2 / itersDivisor baseRun)
        (GetTimeUnitAndMultiplier baseRun.time_unit).1 ∧
    (PrintRunData hrn0 st0 baseRun).time_section =
      timeCol (baseRun.real_accumulated_time *
          (GetTimeUnitAndMultiplier baseRun.time_unit).2 / itersDivisor baseRun)
        (GetTimeUnitAndMultiplier baseRun.time_unit).1 ++
      timeCol (baseRun.cpu_accumulated_time *
          (GetTimeUnitAndMultiplier baseRun.time_unit).2 / itersDivisor baseRun)
        (GetTimeUnitAndMultiplier baseRun.time_unit).1 ∧
    10 ≤ (fmtFixed0 10 0).length := by
  have h1 := time_column_layout hrn0 st1 baseRun
  have h2 := time_column_layout hrn0 st0 baseRun
  exact ⟨h1.1 rfl, h2.2.1 rfl, h1.2.2 0⟩

theorem reportLoop_all_eq (hrn : ℚ → String) (st : ReporterState) (n : String)
    (l : List QRun) (h : ∀ x ∈ l, x.benchmark_name = n) :
    reportLoop hrn st n l = some (l.map (lineOf hrn st)) := by
  induction l with
  | nil => rfl
  | cons r rs ih =>
    have hr : r.benchmark_name = n := h r (List.mem_cons_self r rs)
    have ih2 := ih (fun x hx => h x (List.mem_cons_of_mem r hx))
    simp [reportLoop, hr, ih2]

theorem reportLoop_mem_ne (hrn : ℚ → String) (st : ReporterState) (n : String)
    (l : List QRun) (x : QRun) (hx : x ∈ l) (hne : x.benchmark_name ≠ n) :
    reportLoop hrn st n l = none := by
  induction l with
  | nil => cases hx
  | cons r rs ih =>
    rcases List.mem_cons.mp hx with h | h
    · subst h
      simp [reportLoop, hne]
    · by_cases hr : r.benchmark_name = n
      · simp [reportLoop, hr, ih h]
      · simp [reportLoop, hr]

theorem reportLoop_streams (hrn : ℚ → String) (st : ReporterState) (n : String)
    (l : List QRun) : ∀ ls, reportLoop hrn st n l = some ls →
    ∀ p ∈ ls, p.1 = OutStream.out := by
  induction l with
  | nil =>
    intro ls h p hp
    simp only [reportLoop] at h
    cases h
    cases hp
  | cons r rs ih =>
    intro ls h p hp
    by_cases hr : r.benchmark_name = n
    · simp only [reportLoop, if_pos hr] at h
      rcases Option.map_eq_some'.mp h with ⟨a, ha, rfl⟩
      rcases List.mem_cons.mp hp with h0 | h0
      · subst h0
        rfl
      · exact ih a ha p h0
    · simp only [reportLoop, if_neg hr] at h
      cases h

/-- C2: an empty run sequence emits nothing and leaves the state alone;
a same-named sequence emits each raw run in input order and, exactly when
it has at least two elements, the mean line and then the stddev line after
them; for one run the output is that single formatted run and the result
does not depend on the statistics function at all (`ComputeStats` is
never invoked). -/
theorem reportRuns_control_flow (cs cs2 : List QRun → QRun × QRun)
    (hrn : ℚ → String) (st : ReporterState) :
    (ReportRuns cs hrn st [] = (st, some [])) ∧
    (∀ r0 rest, (∀ x ∈ r0 :: rest, x.benchmark_name = r0.benchmark_name) →
      (ReportRuns cs hrn st (r0 :: rest)).2 =
        some ((r0 :: rest).map (lineOf hrn st) ++
          (if rest = [] then []
           else [lineOf hrn st (cs (r0 :: rest)).1,
                 lineOf hrn st (cs (r0 :: rest)).2]))) ∧
    (∀ r, ReportRuns cs hrn st [r] = (st, some [lineOf hrn st r])) ∧
    (∀ r, ReportRuns cs hrn st [r] = ReportRuns cs2 hrn st [r]) := by
  refine ⟨rfl, ?_, ?_, ?_⟩
  · intro r0 rest h
    simp only [ReportRuns]
    rw [reportLoop_all_eq hrn st _ _ h]
    rcases rest with _ | ⟨r1, rest2⟩
    · simp
    · simp
  · intro r
    simp [ReportRuns, reportLoop]
  · intro r
    simp [ReportRuns, reportLoop]

/-- C2 witness: concrete empty, single-run and two-run groups. -/
theorem reportRuns_control_flow_witness :
    ReportRuns csStub hrn0 st0 [] = (st0, some []) ∧
    (ReportRuns csStub hrn0 st0 [baseRun]).2 = some [lineOf hrn0 st0 baseRun] ∧
    (ReportRuns csStub hrn0 st0 [baseRun, otherRun]).2 =
      some ([lineOf hrn0 st0 baseRun, lineOf hrn0 st0 otherRun] ++
        [lineOf hrn0 st0 (csStub [baseRun, otherRun]).1,
         lineOf hrn0 st0 (csStub [baseRun, otherRun]).2]) := by
  have h := reportRuns_control_flow csStub csStub hrn0 st0
  have hnames : ∀ x ∈ [baseRun, otherRun],
      x.benchmark_name = baseRun.benchmark_name := by decide
  have h2 := h.2.1 baseRun [otherRun] hnames
  refine ⟨h.1, congrArg Prod.snd (h.2.2.1 baseRun), ?_⟩
  simpa using h2

/-- C5: a run group holding two records with differing `benchmark_name`
hits the fatal `CHECK_EQ` (abort, embedded as `none`) instead of a merged
result; a group whose records all carry the first record's name passes the
check and produces output. -/
theorem name_mismatch_aborts (cs : List QRun → QRun × QRun)
    (hrn : ℚ → String) (st : ReporterState) (reports : List QRun) :
    (∀ r1 r2, r1 ∈ reports → r2 ∈ reports →
      r1.benchmark_name ≠ r2.benchmark_name →
      (ReportRuns cs hrn st reports).2 = none) ∧
    (∀ r0 rest, reports = r0 :: rest →
      (∀ x ∈ reports, x.benchmark_name = r0.benchmark_name) →
      ((ReportRuns cs hrn st reports).2).isSome = true) := by
  constructor
  · intro r1 r2 h1 h2 hne
    rcases reports with _ | ⟨r0, rest⟩
    · cases h1
    · simp only [ReportRuns]
      by_cases hr1 : r1.benchmark_name = r0.benchmark_name
      · have hr2 : r2.benchmark_name ≠ r0.benchmark_name := by
          intro hq
          exact hne (hr1.trans hq.symm)
        rw [reportLoop_mem_ne hrn st _ _ r2 h2 hr2]
        rfl
      · rw [reportLoop_mem_ne hrn st _ _ r1 h1 hr1]
        rfl
  · intro r0 rest hrep hall
    subst hrep
    simp only [ReportRuns]
    rw [reportLoop_all_eq hrn st _ _ hall]
    simp

/-- C5 witness: mixing `BM_test` with `BM_other` aborts; two `BM_test`
runs pass the check. -/
theorem name_mismatch_aborts_witness :
    (ReportRuns csStub hrn0 st0 [baseRun, alienRun]).2 = none ∧
    ((ReportRuns csStub hrn0 st0 [baseRun, otherRun]).2).isSome = true := by
  have h1 := name_mismatch_aborts csStub hrn0 st0 [baseRun, alienRun]
  have h2 := name_mismatch_aborts csStub hrn0 st0 [baseRun, otherRun]
  refine ⟨h1.1 baseRun alienRun (by simp) (by simp) (by decide), ?_⟩
  exact h2.2 baseRun [otherRun] rfl (by decide)

/-- C7: the rule line consists of dash characters and its length equals
the header's rendered width without the terminating newline, in both the
2-time-column and the 3-time-column layouts (`manual` covers both). -/
theorem rule_matches_header_width (nfw : Nat) (manual : Bool) :
    headerLine nfw manual = headerBody nfw manual ++ "\n" ∧
    (ruleLine nfw manual).length = (headerBody nfw manual).length ∧
    (ruleLine nfw manual).data.all (fun c => c == Char.ofNat 45) = true := by
  refine ⟨rfl, ?_, ?_⟩
  · have hn : ("\n" : String).length = 1 := rfl
    have h1 : (headerLine nfw manual).length = (headerBody nfw manual).length + 1 := by
      rw [headerLine, String.length_append, hn]
    simp [ruleLine, String.length_mk, h1]
  · rw [List.all_eq_true]
    intro c hc
    simp only [ruleLine] at hc
    have h2 := List.eq_of_mem_replicate hc
    simp [h2]

/-- C7 witness: rule and header widths agree for a width-10 name column
in both layouts, and the rule characters pass the dash test. -/
theorem rule_matches_header_width_witness :
    (ruleLine 10 true).length = (headerBody 10 true).length ∧
    (ruleLine 10 false).length = (headerBody 10 false).length ∧
    (ruleLine 10 true).data.all (fun c => c == Char.ofNat 45) = true := by
  have ht := rule_matches_header_width 10 true
  have hf := rule_matches_header_width 10 false
  exact ⟨ht.2.1, hf.2.1, ht.2.2⟩

/-- C8: the session layout state is written during `ReportContext` —
`name_field_width_` from the context's width, `manual_time_used_` from the
context's flag, the very flag that selects the 2- versus 3-time-column
header — and `ReportRuns` and `PrintRunData` hand the state back
unmodified, so every run line uses the layout fixed at header time. -/
theorem session_layout_written_once (localDateTime : String) (debugBuild : Bool)
    (st : ReporterState) (ctx : Context) (cs : List QRun → QRun × QRun)
    (hrn : ℚ → String) :
    (ReportContext localDateTime debugBuild st ctx).1 =
      ⟨ctx.name_field_width, ctx.manual_time_used⟩ ∧
    (ctx.manual_time_used = true →
      headerBody ctx.name_field_width ctx.manual_time_used =
        padLeftJustify ctx.name_field_width "Benchmark" ++ " " ++
        padRightJustify 13 "Real time" ++ " " ++
        padRightJustify 13 "Manual time" ++ " " ++
        padRightJustify 13 "CPU" ++ " " ++
        padRightJustify 10 "Iterations") ∧
    (ctx.manual_time_used = false →
      headerBody ctx.name_field_width ctx.manual_time_used =
        padLeftJustify ctx.name_field_width "Benchmark" ++ " " ++
        padRightJustify 13 "Time" ++ " " ++
        padRightJustify 13 "CPU" ++ " " ++
        padRightJustify 10 "Iterations") ∧
    (∀ reports, (ReportRuns cs hrn st reports).1 = st) ∧
    (∀ r, (PrintRunDataS hrn st r).1 = st) := by
  refine ⟨rfl, ?_, ?_, ?_, fun r => rfl⟩
  · intro h
    simp [headerBody, h]
  · intro h
    simp [headerBody, h]
  · intro reports
    rcases reports with _ | ⟨r, rs⟩ <;> rfl

/-- C8 witness: a concrete context fixes the state and a subsequent
`ReportRuns`/`PrintRunData` call leaves it untouched. -/
theorem session_layout_written_once_witness :
    (ReportContext "2015-01-01" true st0 ctx0).1 = ⟨10, false⟩ ∧
    headerBody ctx0.name_field_width ctx0.manual_time_used =
      padLeftJustify ctx0.name_field_width "Benchmark" ++ " " ++
      padRightJustify 13 "Time" ++ " " ++
      padRightJustify 13 "CPU" ++ " " ++
      padRightJustify 10 "Iterations" ∧
    (ReportRuns csStub hrn0 st0 [baseRun]).1 = st0 ∧
    (PrintRunDataS hrn0 st0 baseRun).1 = st0 := by
  have h := session_layout_written_once "2015-01-01" true st0 ctx0 csStub hrn0
  exact ⟨h.1, h.2.2.1 rfl, h.2.2.2.1 [baseRun], h.2.2.2.2 baseRun⟩

/-- C10: `ReportContext` sends the execution-environment lines (CPU info,
timestamp, scaling and debug warnings) to standard error and the column
header and rule lines to standard output — and only those two reach
standard output there — while every line `ReportRuns` emits goes to
standard output, so the tabular report and the commentary use different
streams. -/
theorem context_and_table_streams (localDateTime : String) (debugBuild : Bool)
    (st : ReporterState) (ctx : Context) (cs : List QRun → QRun × QRun)
    (hrn : ℚ → String) :
    (OutStream.err, cpuInfoLine ctx) ∈
      (ReportContext localDateTime debugBuild st ctx).2.1 ∧
    (OutStream.err, localDateTime ++ "\n") ∈
      (ReportContext localDateTime debugBuild st ctx).2.1 ∧
    (ctx.cpu_scaling_enabled = true → (OutStream.err, scalingWarning) ∈
      (ReportContext localDateTime debugBuild st ctx).2.1) ∧
    (debugBuild = true → (OutStream.err, debugWarning) ∈
      (ReportContext localDateTime debugBuild st ctx).2.1) ∧
    (OutStream.out, headerLine ctx.name_field_width ctx.manual_time_used) ∈
      (ReportContext localDateTime debugBuild st ctx).2.1 ∧
    (OutStream.out, ruleLine ctx.name_field_width ctx.manual_time_used ++ "\n") ∈
      (ReportContext localDateTime debugBuild st ctx).2.1 ∧
    (∀ s, (OutStream.out, s) ∈ (ReportContext localDateTime debugBuild st ctx).2.1 →
      s = headerLine ctx.name_field_width ctx.manual_time_used ∨
      s = ruleLine ctx.name_field_width ctx.manual_time_used ++ "\n") ∧
    (∀ reports ls, (ReportRuns cs hrn st reports).2 = some ls →
      ∀ p ∈ ls, p.1 = OutStream.out) := by
  refine ⟨?_, ?_, ?_, ?_, ?_, ?_, ?_, ?_⟩
  · simp [ReportContext]
  · simp [ReportContext]
  · intro h
    simp [ReportContext, h]
  · intro h
    simp [ReportContext, h]
  · simp [ReportContext]
  · simp [ReportContext]
  · intro s hs
    by_cases hc : ctx.cpu_scaling_enabled <;> by_cases hd : debugBuild <;>
      simp [ReportContext, hc, hd] at hs <;> tauto
  · intro reports ls h p hp
    rcases reports with _ | ⟨r0, rest⟩
    · simp only [ReportRuns] at h
      cases h
      cases hp
    · simp only [ReportRuns] at h
      rcases Option.map_eq_some'.mp h with ⟨a, ha, rfl⟩
      by_cases hl : (r0 :: rest).length < 2
      · rw [if_pos hl] at hp
        exact reportLoop_streams hrn st _ _ a ha p hp
      · rw [if_neg hl] at hp
        rcases List.mem_append.mp hp with h0 | h0
        · exact reportLoop_streams hrn st _ _ a ha p h0
        · rcases List.mem_cons.mp h0 with h1 | h1
          · subst h1
            rfl
          · rcases List.mem_cons.mp h1 with h2 | h2
            · subst h2
              rfl
            · cases h2

/-- C10 witness: concrete context with scaling and debug warnings on, and
a concrete single-run report whose line is tagged stdout. -/
theorem context_and_table_streams_witness :
    (OutStream.err, cpuInfoLine ctx0) ∈ (ReportContext "d" true st0 ctx0).2.1 ∧
    (OutStream.err, scalingWarning) ∈ (ReportContext "d" true st0 ctx0).2.1 ∧
    (OutStream.err, debugWarning) ∈ (ReportContext "d" true st0 ctx0).2.1 ∧
    (OutStream.out, headerLine ctx0.name_field_width ctx0.manual_time_used) ∈
      (ReportContext "d" true st0 ctx0).2.1 ∧
    (lineOf hrn0 st0 baseRun).1 = OutStream.out := by
  have h := context_and_table_streams "d" true st0 ctx0 csStub hrn0
  refine ⟨h.1, h.2.2.1 rfl, h.2.2.2.1 rfl, h.2.2.2.2.1, ?_⟩
  exact h.2.2.2.2.2.2.2 [baseRun] [lineOf hrn0 st0 baseRun]
    (by simp [ReportRuns, reportLoop]) _ (List.mem_singleton_self _)

theorem popStddevOf_singleton (r : Run ℝ) (f : Run ℝ → ℝ) :
    popStddevOf [r] f = 0 := by
  simp [popStddevOf, meanOf]

/-- C6: each numeric field of the mean record is the arithmetic mean and
each numeric field of the stddev record the population standard deviation
of the per-run values, with the non-numeric fields copied from the first
run; on real times `[10, 20, 30]` with one iteration each the mean real
time is 20 and the stddev real time lies strictly between 8.16 and 8.17;
a single-element sequence yields 0 (never NaN) in every stddev field. -/
theorem computeStats_mean_stddev :
    (∀ rs : List (Run ℝ),
      (BenchmarkReporter.ComputeStats rs).1.real_accumulated_time =
        meanOf rs (fun r => r.real_accumulated_time) ∧
      (BenchmarkReporter.ComputeStats rs).1.cpu_accumulated_time =
        meanOf rs (fun r => r.cpu_accumulated_time) ∧
      (BenchmarkReporter.ComputeStats rs).1.manual_accumulated_time =
        meanOf rs (fun r => r.manual_accumulated_time) ∧
      (BenchmarkReporter.ComputeStats rs).1.iterations =
        meanOf rs (fun r => r.iterations) ∧
      (BenchmarkReporter.ComputeStats rs).1.bytes_per_second =
        meanOf rs (fun r => r.bytes_per_second) ∧
      (BenchmarkReporter.ComputeStats rs).1.items_per_second =
        meanOf rs (fun r => r.items_per_second) ∧
      (BenchmarkReporter.ComputeStats rs).1.bytes_per_manual_second =
        meanOf rs (fun r => r.bytes_per_manual_second) ∧
      (BenchmarkReporter.ComputeStats rs).1.items_per_manual_second =
        meanOf rs (fun r => r.items_per_manual_second) ∧
      (BenchmarkReporter.ComputeStats rs).2.real_accumulated_time =
        popStddevOf rs (fun r => r.real_accumulated_time) ∧
      (BenchmarkReporter.ComputeStats rs).2.cpu_accumulated_time =
        popStddevOf rs (fun r => r.cpu_accumulated_time) ∧
      (BenchmarkReporter.ComputeStats rs).2.manual_accumulated_time =
        popStddevOf rs (fun r => r.manual_accumulated_time) ∧
      (BenchmarkReporter.ComputeStats rs).2.iterations =
        popStddevOf rs (fun r => r.iterations) ∧
      (BenchmarkReporter.ComputeStats rs).2.bytes_per_second =
        popStddevOf rs (fun r => r.bytes_per_second) ∧
      (BenchmarkReporter.ComputeStats rs).2.items_per_second =
        popStddevOf rs (fun r => r.items_per_second) ∧
      (BenchmarkReporter.ComputeStats rs).2.bytes_per_manual_second =
        popStddevOf rs (fun r => r.bytes_per_manual_second) ∧
      (BenchmarkReporter.ComputeStats rs).2.items_per_manual_second =
        popStddevOf rs (fun r => r.items_per_manual_second) ∧
      (BenchmarkReporter.ComputeStats rs).1.benchmark_name =
        rs.headI.benchmark_name ∧
      (BenchmarkReporter.ComputeStats rs).2.benchmark_name =
        rs.headI.benchmark_name ∧
      (BenchmarkReporter.ComputeStats rs).1.time_unit = rs.headI.time_unit ∧
      (BenchmarkReporter.ComputeStats rs).1.report_label =
        rs.headI.report_label ∧
      (BenchmarkReporter.ComputeStats rs).1.both_manual_and_real_time =
        rs.headI.both_manual_and_real_time) ∧
    (BenchmarkReporter.ComputeStats statRuns).1.real_accumulated_time = 20 ∧
    (BenchmarkReporter.ComputeStats statRuns).2.real_accumulated_time =
      Real.sqrt (200 / 3) ∧
    (816 / 100 : ℝ) <
      (BenchmarkReporter.ComputeStats statRuns).2.real_accumulated_time ∧
    (BenchmarkReporter.ComputeStats statRuns).2.real_accumulated_time <
      817 / 100 ∧
    (∀ r : Run ℝ,
      (BenchmarkReporter.ComputeStats [r]).2.real_accumulated_time = 0 ∧
      (BenchmarkReporter.ComputeStats [r]).2.cpu_accumulated_time = 0 ∧
      (BenchmarkReporter.ComputeStats [r]).2.manual_accumulated_time = 0 ∧
      (BenchmarkReporter.ComputeStats [r]).2.iterations = 0 ∧
      (BenchmarkReporter.ComputeStats [r]).2.bytes_per_second = 0 ∧
      (BenchmarkReporter.ComputeStats [r]).2.items_per_second = 0 ∧
      (BenchmarkReporter.ComputeStats [r]).2.bytes_per_manual_second = 0 ∧
      (BenchmarkReporter.ComputeStats [r]).2.items_per_manual_second = 0) := by
  have hgen : ∀ rs : List (Run ℝ),
      (BenchmarkReporter.ComputeStats rs).2.real_accumulated_time =
        popStddevOf rs (fun r => r.real_accumulated_time) := fun rs => rfl
  have hmean : meanOf statRuns (fun r => r.real_accumulated_time) = 20 := by
    simp [meanOf, statRuns, statRun]
    norm_num
  have hvar : ((statRuns.map (fun r =>
      (r.real_accumulated_time -
        meanOf statRuns (fun r => r.real_accumulated_time)) ^ 2)).sum /
      (statRuns.length : ℝ)) = 200 / 3 := by
    rw [hmean]
    simp [statRuns, statRun]
    norm_num
  have hsd : (BenchmarkReporter.ComputeStats statRuns).2.real_accumulated_time =
      Real.sqrt (200 / 3) := by
    rw [hgen statRuns, popStddevOf, hvar]
  refine ⟨fun rs => ⟨rfl, rfl, rfl, rfl, rfl, rfl, rfl, rfl, rfl, rfl, rfl, rfl,
    rfl, rfl, rfl, rfl, rfl, rfl, rfl, rfl, rfl⟩, ?_, hsd, ?_, ?_, ?_⟩
  · show meanOf statRuns (fun r => r.real_accumulated_time) = 20
    exact hmean
  · rw [hsd, show (816 / 100 : ℝ) < Real.sqrt (200 / 3) ↔
      (816 / 100 : ℝ) ^ 2 < 200 / 3 from Real.lt_sqrt (by norm_num)]
    norm_num
  · rw [hsd, Real.sqrt_lt' (by norm_num)]
    norm_num
  · intro r
    exact ⟨popStddevOf_singleton r _, popStddevOf_singleton r _,
      popStddevOf_singleton r _, popStddevOf_singleton r _,
      popStddevOf_singleton r _, popStddevOf_singleton r _,
      popStddevOf_singleton r _, popStddevOf_singleton r _⟩

end Benchmark
